import Mathlib

/-!
Verification of the py-didery client core (reputage/py-didery).

Shallow embedding of the three source files under src/:
  src/pydidery/help/helping.py, src/pydidery/lib/historying.py,
  src/pydidery/lib/otping.py.

Conventions of the embedding:
- Python exceptions are values of `PyErr`; a function that can raise
  returns `Except PyErr A`.
- JSON values decoded with object_pairs_hook=OrderedDict are `JVal`;
  objects are association lists, so key insertion order is preserved.
- JSON numbers are modelled as integers (no claim depends on floats).
- Code of this repository that is not under src/ (diderying.py with the
  ValidationError class, generating.py with the key codec and signer, and
  consensing.py with the consensus resolver) is modelled from the spec;
  each such definition carries a doc comment saying so.  Third-party
  library behaviour (json, libnacl, the ioflo transport) is either
  modelled from its documented contract or taken as a parameter.
-/

/-- Python exception values.  `validationError` is the repository type
raised by the validators; the others are Python builtins.  Modelled from
the spec for the part outside src/: diderying.py is not in src/, and the
spec error taxonomy treats ValidationError as its own typed error,
distinct from the builtin ValueError. -/
inductive PyErr where
  | validationError (msg : String)
  | valueError (msg : String)
  | attributeError (msg : String)
  | typeError (msg : String)
  | keyError (msg : String)
  | decodeError (msg : String)
  deriving DecidableEq, Repr

/-- True exactly for the repository ValidationError type. -/
def PyErr.isValidation : PyErr → Bool
  | .validationError _ => true
  | _ => false

/-- JSON values as decoded by json.load with object_pairs_hook=ODict:
objects keep key insertion order as an association list. -/
inductive JVal where
  | obj (kvs : List (String × JVal))
  | arr (items : List JVal)
  | str (s : String)
  | num (n : Int)
  | bool (b : Bool)
  | null
  deriving Repr

/-- Python truthiness of a decoded JSON value (`if not data`). -/
def pyTruthy : JVal → Bool
  | .obj kvs => !kvs.isEmpty
  | .arr items => !items.isEmpty
  | .str s => !(s == "")
  | .num n => !(n == 0)
  | .bool b => b
  | .null => false

/-- `isinstance(data, dict)`. -/
def JVal.isObj : JVal → Bool
  | .obj _ => true
  | _ => false

/-- First-match association-list lookup, as Python dict lookup. -/
def assocLookup {β : Type} (l : List (String × β)) (k : String) : Option β :=
  match l with
  | [] => none
  | (k2, v) :: rest => if k2 == k then some v else assocLookup rest k

/-- Python dict assignment `d[k] = v`: update in place keeping position,
or append a fresh key at the end. -/
def assocSet {β : Type} (l : List (String × β)) (k : String) (v : β) : List (String × β) :=
  match l with
  | [] => [(k, v)]
  | (k2, v2) :: rest => if k2 == k then (k2, v) :: rest else (k2, v2) :: assocSet rest k v

/-- `field in d` for a Python dict decoded from JSON. -/
def hasKey (kvs : List (String × JVal)) (f : String) : Bool :=
  kvs.any (fun p => p.1 == f)

/-- Substring test used by Python `field in s` on strings. -/
def strHasSub (s : String) (f : String) : Bool :=
  decide (f.toList <:+: s.toList)

/-- Python membership `f not in data` on a decoded JSON value: key test on
dicts, equality test on lists, substring test on strings, TypeError
otherwise. -/
def pyNotIn (d : JVal) (f : String) : Except PyErr Bool :=
  match d with
  | .obj kvs => .ok (!hasKey kvs f)
  | .arr items => .ok (!items.any (fun v => match v with | .str s => s == f | _ => false))
  | .str s => .ok (!strHasSub s f)
  | _ => .error (.typeError "argument is not iterable")

/-- Python subscript `data[f]` on a decoded JSON value. -/
def pyGetItem (d : JVal) (f : String) : Except PyErr JVal :=
  match d with
  | .obj kvs =>
    match assocLookup kvs f with
    | some v => .ok v
    | none => .error (.keyError f)
  | .str _ => .error (.typeError "string indices must be integers")
  | .arr _ => .error (.typeError "list indices must be integers")
  | _ => .error (.typeError "object is not subscriptable")

/-- Python assignment `data[k] = v` on a decoded JSON value. -/
def pySetItem (d : JVal) (k : String) (v : JVal) : Except PyErr JVal :=
  match d with
  | .obj kvs => .ok (.obj (assocSet kvs k v))
  | _ => .error (.typeError "object does not support item assignment")

/-- Python str.split with a one-character separator: every occurrence of
the separator bounds a field, and the empty string yields one empty
field. -/
def splitOnChar (sep : Char) : List Char → List (List Char)
  | [] => [[]]
  | c :: rest =>
    let r := splitOnChar sep rest
    if c == sep then [] :: r
    else
      match r with
      | h :: t => (c :: h) :: t
      | [] => [[c]]

/-- String-level wrapper for splitOnChar. -/
def pySplit (s : String) (sep : Char) : List String :=
  (splitOnChar sep s.toList).map (fun cs => String.mk cs)

/-- helping.validateDid: split the DID on every colon; exactly three parts
unpack, otherwise the tuple unpacking raises ValueError, replaced by
ValueError with the malformed message; then the prefix and method are
checked.  The source raises the builtin ValueError (its docstring says
so), not the repository ValidationError. -/
def validateDid (did : String) (method : String) : Except PyErr (String × String) :=
  match pySplit did ':' with
  | [pre, meth, keystr] =>
    if pre != "did" || meth != method then .error (.valueError "Invalid DID value")
    else .ok (did, keystr)
  | _ => .error (.valueError "Malformed DID value")

/-- A Python value in message position: bytes or a unicode string.  The
distinction matters because verify concatenates sig + msg. -/
inductive PyMsg where
  | bytes (bs : List Nat)
  | str (s : String)

/-- Python `sig + msg` with sig of type bytes: concatenation succeeds for
a bytes operand and raises TypeError for a str operand. -/
def bytesConcat (sig : List Nat) (msg : PyMsg) : Except PyErr (List Nat) :=
  match msg with
  | .bytes bs => .ok (sig ++ bs)
  | .str _ => .error (.typeError "cannot concat str to bytes")

/-- helping.verify: libnacl.crypto_sign_open is a third-party primitive,
taken as the parameter `op` (signed message, verification key, returning
the opened message or raising).  The whole try body runs under the
catch-all: the sig + msg concatenation itself (TypeError when msg is a
str), as well as any failure of the primitive, returns False; the result
is filtered through Python truthiness. -/
def verify (op : List Nat → List Nat → Except PyErr (List Nat))
    (sig : List Nat) (msg : PyMsg) (vk : List Nat) : Bool :=
  match bytesConcat sig msg with
  | .error _ => false
  | .ok sm =>
    match op sm vk with
    | .error _ => false
    | .ok result => if result.isEmpty then false else true

/-- Value of one base64url character, per the URL-safe alphabet. -/
def b64Val (c : Char) : Option Nat :=
  if 65 ≤ c.toNat ∧ c.toNat ≤ 90 then some (c.toNat - 65)
  else if 97 ≤ c.toNat ∧ c.toNat ≤ 122 then some (c.toNat - 97 + 26)
  else if 48 ≤ c.toNat ∧ c.toNat ≤ 57 then some (c.toNat - 48 + 52)
  else if c == '-' then some 62
  else if c == '_' then some 63
  else none

/-- Reassemble bytes from 6-bit groups; a trailing single group cannot
occur because the length check rejects it. -/
def b64Bytes : List Nat → List Nat
  | [] => []
  | [_] => []
  | [a, b] => [a * 4 + b / 16]
  | [a, b, c] => [a * 4 + b / 16, (b % 16) * 16 + c / 4]
  | a :: b :: c :: d :: rest =>
    (a * 4 + b / 16) :: ((b % 16) * 16 + c / 4) :: ((c % 4) * 64 + d) :: b64Bytes rest

/-- Modelled from the spec: generating.key64uToKey (generating.py is not
under src/).  Spec 4.1 decodeKey: URL-safe base64 without padding, inverse
of encodeKey; fails with DecodeError on malformed input (wrong alphabet,
truncated group). -/
def key64uToKey (s : String) : Except PyErr (List Nat) :=
  match s.toList.mapM b64Val with
  | none => .error (.decodeError "Invalid base64 character")
  | some vals =>
    if vals.length % 4 == 1 then .error (.decodeError "Invalid base64 length")
    else .ok (b64Bytes vals)

/-- helping.verify64u: decodes the signature and the verification key with
the base64 codec, then calls verify with the message passed through
unencoded, as the source does: message is a unicode string (so the
concatenation inside verify raises TypeError, caught there as False).
The decoding itself happens outside the try/except inside verify, so a
codec failure propagates. -/
def verify64u (op : List Nat → List Nat → Except PyErr (List Nat))
    (signature message verkey : String) : Except PyErr Bool :=
  match key64uToKey signature with
  | .error e => .error e
  | .ok sig =>
    match key64uToKey verkey with
    | .error e => .error e
    | .ok vk => .ok (verify op sig (.str message) vk)

/-- Outcome of json.load on the opened file: a decoded value, the
ValueError raised on invalid JSON, or any other exception. -/
inductive LoadExc where
  | valueExc
  | otherExc
  deriving DecidableEq, Repr

/-- The `for field in requireds: if field not in data: raise` loop shared
by parseJsonFile and parseDataFile. -/
def requireFields (data : JVal) (fields : List String) : Except PyErr Unit :=
  match fields with
  | [] => .ok ()
  | f :: rest =>
    match pyNotIn data f with
    | .error e => .error e
    | .ok true => .error (.validationError ("Missing required field " ++ f))
    | .ok false => requireFields data rest

/-- helping.parseJsonFile: the json.load outcome is the parameter `r`.
ValueError from json.load becomes ValidationError Invalid JSON; any other
exception inside the try is caught by the generic handler and re-raised
as ValidationError Unexpected error; then the falsy check, the dict
check, and the required-field loop run in order, and the decoded value is
returned unchanged. -/
def parseJsonFile (r : Except LoadExc JVal) (requireds : List String) : Except PyErr JVal :=
  match r with
  | .error .valueExc => .error (.validationError "Invalid JSON")
  | .error .otherExc => .error (.validationError "Unexpected error")
  | .ok data =>
    if pyTruthy data then
      if data.isObj then
        match requireFields data requireds with
        | .error e => .error e
        | .ok _ => .ok data
      else .error (.validationError "JSON not dict")
    else .error (.validationError "Empty body")

/-- helping.parseDataFile: data starts as the empty dict; the history
branch unwraps the history key and checks id, signer, signers; the otp
branch unwraps the otp key and checks id, blob; finally validateDid runs
on data[id] (a non-string id would fail at .split with AttributeError). -/
def parseDataFile (r : Except LoadExc JVal) (dtype : String) : Except PyErr JVal :=
  let hist : Except PyErr JVal :=
    if dtype == "history" then
      match parseJsonFile r ["history"] with
      | .error e => .error e
      | .ok j =>
        match pyGetItem j "history" with
        | .error e => .error e
        | .ok d =>
          match requireFields d ["id", "signer", "signers"] with
          | .error e => .error e
          | .ok _ => .ok d
    else .ok (.obj [])
  match hist with
  | .error e => .error e
  | .ok d1 =>
    let otp : Except PyErr JVal :=
      if dtype == "otp" then
        match parseJsonFile r ["otp"] with
        | .error e => .error e
        | .ok j =>
          match pyGetItem j "otp" with
          | .error e => .error e
          | .ok d =>
            match requireFields d ["id", "blob"] with
            | .error e => .error e
            | .ok _ => .ok d
      else .ok d1
    match otp with
    | .error e => .error e
    | .ok data =>
      match pyGetItem data "id" with
      | .error e => .error e
      | .ok idv =>
        match idv with
        | .str s =>
          match validateDid s "dad" with
          | .error e => .error e
          | .ok _ => .ok data
        | _ => .error (.attributeError "object has no attribute split")

/-- Compact JSON serialization: json.dumps with ensure_ascii=False and
separators comma and colon, key order as constructed.  Mutual over
values, array items, and object members. -/
def escapeJsonChar (c : Char) : String :=
  if c == Char.ofNat 34 then "\\\""
  else if c == Char.ofNat 92 then "\\\\"
  else if c == Char.ofNat 10 then "\\n"
  else if c == Char.ofNat 13 then "\\r"
  else if c == Char.ofNat 9 then "\\t"
  else String.singleton c

/-- String-body escaping for the serializer. -/
def escapeJson (s : String) : String :=
  s.toList.foldl (fun acc c => acc ++ escapeJsonChar c) ""

mutual

/-- Serialize one JSON value compactly. -/
def jsonDumps : JVal → String
  | .obj kvs => "\x7b" ++ jsonDumpsPairs kvs ++ "\x7d"
  | .arr items => "[" ++ jsonDumpsItems items ++ "]"
  | .str s => "\"" ++ escapeJson s ++ "\""
  | .num n => toString n
  | .bool b => if b then "true" else "false"
  | .null => "null"

/-- Serialize array items, comma separated. -/
def jsonDumpsItems : List JVal → String
  | [] => ""
  | [v] => jsonDumps v
  | v :: rest => jsonDumps v ++ "," ++ jsonDumpsItems rest

/-- Serialize object members, comma separated, colon between key and
value. -/
def jsonDumpsPairs : List (String × JVal) → String
  | [] => ""
  | [(k, v)] => "\"" ++ escapeJson k ++ "\":" ++ jsonDumps v
  | (k, v) :: rest => "\"" ++ escapeJson k ++ "\":" ++ jsonDumps v ++ "," ++ jsonDumpsPairs rest

end

/-- One HTTP request descriptor: what the Patron client is constructed
with (headers after the default substitution in httpRequest). -/
structure Request where
  method : String
  path : String
  headers : List (String × String)
  data : Option JVal
  deriving Repr

/-- Network behaviour of one request, abstracting the Patron transport:
the response becomes available at service step s, or servicing raises at
step s, or no response ever arrives. -/
inductive Fate where
  | completes (s : Nat) (body : String) (status : Int)
  | raises (s : Nat) (e : PyErr)
  | timesOut
  deriving Repr

/-- The service loop of helping.httpRequest advances the store clock by
0.125 per iteration against the default timeout of 10000.0, so a request
still pending after this many service steps is abandoned with response
None. -/
def deadlineSteps : Nat := 80000

/-- State of one Python generator as awaitAsync drives it: how many bare
yields remain, then StopIteration carrying a value (none models a falsy
return), or an escaping exception. -/
structure Gen where
  yields : Nat
  final : Except PyErr (Option (String × Int))
  deriving Repr

/-- helping.httpRequest as a generator: yields the empty string while the
client is serviced, then returns the response, or None when the deadline
expired first; a servicing exception is logged and re-raised.  The
transport itself (ioflo Patron) is the parameter `net`. -/
def httpRequest (net : Request → Fate) (method : String) (path : String)
    (headers : Option (List (String × String))) (data : Option JVal) : Gen :=
  let hdrs := headers.getD [("Accept", "application/json"), ("Connection", "close")]
  match net ⟨method, path, hdrs, data⟩ with
  | .completes s body status =>
    if s < deadlineSteps then ⟨s + 1, .ok (some (body, status))⟩
    else ⟨deadlineSteps, .ok none⟩
  | .raises s e =>
    if s < deadlineSteps then ⟨s, .error e⟩
    else ⟨deadlineSteps, .ok none⟩
  | .timesOut => ⟨deadlineSteps, .ok none⟩

/-- A per-replica outcome as stored by awaitAsync. -/
abbrev Outcome : Type := JVal × Int

/-- The generator collection handed to awaitAsync: historying passes a
dict keyed by replica url, otping passes a plain list. -/
inductive PyGens where
  | dict (l : List (String × Gen))
  | list (l : List Gen)

/-- One pass of the `for i, generator in generators.items()` loop: every
still-pending generator is stepped once; a generator that stops with a
truthy value is recorded as (json.loads(body), status), one that stops
with a falsy value as the request-timeout outcome; an exception escaping
next() (or json.loads) propagates out of the whole call. -/
def awaitRound (jl : String → Except PyErr JVal) (acc : List (String × Outcome)) :
    List (String × Gen) → Except PyErr (List (String × Outcome) × List (String × Gen))
  | [] => .ok (acc, [])
  | (k, g) :: rest =>
    match g.yields with
    | n + 1 =>
      match awaitRound jl acc rest with
      | .error e => .error e
      | .ok (a, r) => .ok (a, (k, ⟨n, g.final⟩) :: r)
    | 0 =>
      match g.final with
      | .error e => .error e
      | .ok none =>
        awaitRound jl (acc ++ [(k, ((.obj [("error", .str "request timeout")], 0) : Outcome))]) rest
      | .ok (some (body, status)) =>
        match jl body with
        | .error e => .error e
        | .ok j => awaitRound jl (acc ++ [(k, ((j, status) : Outcome))]) rest

/-- Sufficient fuel for the while-True loop: every generator is stepped
each round, so after this many rounds all have stopped. -/
def muGens (gens : List (String × Gen)) : Nat :=
  (gens.map (fun p => p.2.yields + 1)).sum

/-- The while-True loop of awaitAsync: run rounds until the generator
dict is empty.  Fuel only encodes totality; awaitAsync always supplies
enough for the loop to reach the empty state. -/
def awaitLoop (jl : String → Except PyErr JVal) :
    Nat → List (String × Outcome) → List (String × Gen) → Except PyErr (List (String × Outcome))
  | 0, acc, _ => .ok acc
  | fuel + 1, acc, gens =>
    match awaitRound jl acc gens with
    | .error e => .error e
    | .ok (a, r) => if r.isEmpty then .ok a else awaitLoop jl fuel a r

/-- helping.awaitAsync: the first operation on the argument is
generators.items(), so a list raises AttributeError; a dict is driven
round by round until every generator has produced an outcome.  json.loads
is the parameter `jl`. -/
def awaitAsync (jl : String → Except PyErr JVal) (gens : PyGens) :
    Except PyErr (List (String × Outcome)) :=
  match gens with
  | .list _ => .error (.attributeError "list object has no attribute items")
  | .dict l => awaitLoop jl (muGens l + 1) [] l

/-- Default replica urls of historying.py. -/
def histDefaultUrls : List String := ["http://localhost:8080", "http://localhost:8000"]

/-- Default replica urls of otping.py; they point at the history service
path, kept as in the source. -/
def otpDefaultUrls : List String := ["http://localhost:8080/history", "http://localhost:8000/history"]

namespace Historying

/-- historying.patronHelper: drive httpRequest, then unpack the response
dict with result.get; when httpRequest returned None after the deadline,
that .get call raises AttributeError inside the generator. -/
def patronHelper (net : Request → Fate) (method : String) (path : String)
    (headers : Option (List (String × String))) (data : Option JVal) : Gen :=
  let g := httpRequest net method path headers data
  ⟨g.yields,
    match g.final with
    | .error e => .error e
    | .ok none => .error (.attributeError "NoneType object has no attribute get")
    | .ok (some r) => .ok (some r)⟩

/-- The generator dict built by historying.getDidHistory: one entry per
replica url, keyed by the url, requesting url/history/did. -/
def getGens (net : Request → Fate) (did : String) (urls : List String) :
    List (String × Gen) :=
  urls.foldl
    (fun acc url =>
      assocSet acc url (patronHelper net "GET" (url ++ "/" ++ "history" ++ "/" ++ did) none none))
    []

/-- historying.getDidHistory: build the per-replica generators, run
awaitAsync over the dict, and hand the outcome mapping to
consensing.consense with dtype history.  consensing.py is not under src/,
so the resolver is the opaque parameter `consense`. -/
def getDidHistory {γ : Type} (consense : List (String × Outcome) → String → γ)
    (net : Request → Fate) (jl : String → Except PyErr JVal)
    (did : String) (urls? : Option (List String)) : Except PyErr γ :=
  let urls := urls?.getD histDefaultUrls
  (awaitAsync jl (.dict (getGens net did urls))).map (fun data => consense data "history")

/-- Request construction of historying.postHistory after the changed
stamp: decode the signing key, sign the compact serialization, and build
one POST to url/history per replica, all sharing the same body and the
same Signature header signer=sig.  generating.signResource is the
parameter `sign` (modelled from spec 4.2: it signs exactly the bytes
given). -/
def postHistorySigned (sign : String → List Nat → String) (data2 : JVal)
    (sk : String) (urls : List String) : Except PyErr (List (String × Request)) :=
  match key64uToKey sk with
  | .error e => .error e
  | .ok skb =>
    let bdata := jsonDumps data2
    let hdr := "signer=\"" ++ sign bdata skb ++ "\""
    .ok (urls.foldl
      (fun acc url =>
        assocSet acc url ⟨"POST", url ++ "/" ++ "history", [("Signature", hdr)], some data2⟩)
      [])

/-- historying.postHistory: stamps data.changed in place (the first pair
component is the caller-visible record object after the call), then
broadcasts the signed request to every replica and returns awaitAsync
raw outcomes. -/
def postHistory (sign : String → List Nat → String) (net : Request → Fate)
    (jl : String → Except PyErr JVal) (data : JVal) (sk : String)
    (urls? : Option (List String)) (now : String) :
    JVal × Except PyErr (List (String × Outcome)) :=
  let urls := urls?.getD histDefaultUrls
  match pySetItem data "changed" (.str now) with
  | .error e => (data, .error e)
  | .ok data2 =>
    match postHistorySigned sign data2 sk urls with
    | .error e => (data2, .error e)
    | .ok reqs =>
      (data2, awaitAsync jl (.dict (reqs.map
        (fun p => (p.1, patronHelper net p.2.method p.2.path (some p.2.headers) p.2.data)))))

/-- Request construction of historying.putHistory after the changed
stamp: two signatures over the same compact serialization, one with the
current signing key and one with the rotation key, both in one Signature
header, one PUT to url/history/did per replica. -/
def putHistorySigned (sign : String → List Nat → String) (did : String) (data2 : JVal)
    (sk psk : String) (urls : List String) : Except PyErr (List (String × Request)) :=
  match key64uToKey sk with
  | .error e => .error e
  | .ok skb =>
    match key64uToKey psk with
    | .error e => .error e
    | .ok pskb =>
      let bdata := jsonDumps data2
      let hdr := "signer=\"" ++ sign bdata skb ++ "\"; rotation=\"" ++ sign bdata pskb ++ "\""
      .ok (urls.foldl
        (fun acc url =>
          assocSet acc url
            ⟨"PUT", url ++ "/" ++ "history" ++ "/" ++ did, [("Signature", hdr)], some data2⟩)
        [])

/-- historying.putHistory: as postHistory but with the rotation
co-signature and the did in the endpoint. -/
def putHistory (sign : String → List Nat → String) (net : Request → Fate)
    (jl : String → Except PyErr JVal) (did : String) (data : JVal) (sk psk : String)
    (urls? : Option (List String)) (now : String) :
    JVal × Except PyErr (List (String × Outcome)) :=
  let urls := urls?.getD histDefaultUrls
  match pySetItem data "changed" (.str now) with
  | .error e => (data, .error e)
  | .ok data2 =>
    match putHistorySigned sign did data2 sk psk urls with
    | .error e => (data2, .error e)
    | .ok reqs =>
      (data2, awaitAsync jl (.dict (reqs.map
        (fun p => (p.1, patronHelper net p.2.method p.2.path (some p.2.headers) p.2.data)))))

end Historying

namespace Otping

/-- otping.patronHelper: like the historying one but unpacks with
subscription, so a None response raises TypeError instead. -/
def patronHelper (net : Request → Fate) (method : String) (path : String)
    (headers : Option (List (String × String))) (data : Option JVal) : Gen :=
  let g := httpRequest net method path headers data
  ⟨g.yields,
    match g.final with
    | .error e => .error e
    | .ok none => .error (.typeError "NoneType object is not subscriptable")
    | .ok (some r) => .ok (some r)⟩

/-- The endpoints built by otping.getOtpBlob: url/did, with no service
segment of its own (the replica url is expected to carry it). -/
def getPaths (did : String) (urls : List String) : List String :=
  urls.map (fun url => url ++ "/" ++ did)

/-- otping.getOtpBlob: builds url/did endpoints and hands a plain list of
generators to awaitAsync. -/
def getOtpBlob {γ : Type} (consense : List (String × Outcome) → String → γ)
    (net : Request → Fate) (jl : String → Except PyErr JVal)
    (did : String) (urls? : Option (List String)) : Except PyErr γ :=
  let urls := urls?.getD otpDefaultUrls
  (awaitAsync jl (.list ((getPaths did urls).map
    (fun p => patronHelper net "GET" p none none)))).map (fun data => consense data "otp")

/-- Request construction of otping.postOtpBlob after the changed stamp:
one POST directly to each replica url, same signed body and Signature
header for all. -/
def postOtpBlobSigned (sign : String → List Nat → String) (data2 : JVal)
    (sk : String) (urls : List String) : Except PyErr (List Request) :=
  match key64uToKey sk with
  | .error e => .error e
  | .ok skb =>
    let bdata := jsonDumps data2
    let hdr := "signer=\"" ++ sign bdata skb ++ "\""
    .ok (urls.map (fun url => ⟨"POST", url, [("Signature", hdr)], some data2⟩))

/-- otping.postOtpBlob: stamps data.changed in place, then hands a plain
list of generators to awaitAsync. -/
def postOtpBlob (sign : String → List Nat → String) (net : Request → Fate)
    (jl : String → Except PyErr JVal) (data : JVal) (sk : String)
    (urls? : Option (List String)) (now : String) :
    JVal × Except PyErr (List (String × Outcome)) :=
  let urls := urls?.getD otpDefaultUrls
  match pySetItem data "changed" (.str now) with
  | .error e => (data, .error e)
  | .ok data2 =>
    match postOtpBlobSigned sign data2 sk urls with
    | .error e => (data2, .error e)
    | .ok reqs =>
      (data2, awaitAsync jl (.list (reqs.map
        (fun r => patronHelper net r.method r.path (some r.headers) r.data))))

/-- Request construction of otping.putOtpBlob after the changed stamp:
one PUT to url/did per replica, single signer signature. -/
def putOtpBlobSigned (sign : String → List Nat → String) (did : String) (data2 : JVal)
    (sk : String) (urls : List String) : Except PyErr (List Request) :=
  match key64uToKey sk with
  | .error e => .error e
  | .ok skb =>
    let bdata := jsonDumps data2
    let hdr := "signer=\"" ++ sign bdata skb ++ "\""
    .ok (urls.map (fun url => ⟨"PUT", url ++ "/" ++ did, [("Signature", hdr)], some data2⟩))

/-- otping.putOtpBlob: stamps data.changed in place, then hands a plain
list of generators to awaitAsync. -/
def putOtpBlob (sign : String → List Nat → String) (net : Request → Fate)
    (jl : String → Except PyErr JVal) (did : String) (data : JVal) (sk : String)
    (urls? : Option (List String)) (now : String) :
    JVal × Except PyErr (List (String × Outcome)) :=
  let urls := urls?.getD otpDefaultUrls
  match pySetItem data "changed" (.str now) with
  | .error e => (data, .error e)
  | .ok data2 =>
    match putOtpBlobSigned sign did data2 sk urls with
    | .error e => (data2, .error e)
    | .ok reqs =>
      (data2, awaitAsync jl (.list (reqs.map
        (fun r => patronHelper net r.method r.path (some r.headers) r.data))))

end Otping

section HelperLemmas

theorem assocLookup_set_self {β : Type} (l : List (String × β)) (k : String) (v : β) :
    assocLookup (assocSet l k v) k = some v := by
  induction l with
  | nil => simp [assocSet, assocLookup]
  | cons p rest ih =>
    obtain ⟨k2, v2⟩ := p
    by_cases h : k2 == k
    · simp [assocSet, assocLookup, h]
    · simp [assocSet, assocLookup, h, ih]

theorem assocLookup_set_other {β : Type} (l : List (String × β)) (u k : String) (v : β)
    (h : u ≠ k) : assocLookup (assocSet l u v) k = assocLookup l k := by
  induction l with
  | nil => simp [assocSet, assocLookup, h]
  | cons p rest ih =>
    obtain ⟨k2, v2⟩ := p
    by_cases h2 : k2 == u
    · have hk2 : k2 = u := by simpa [beq_iff_eq] using h2
      subst hk2
      simp [assocSet, assocLookup, h, beq_iff_eq]
    · simp [assocSet, assocLookup, h2, ih]

theorem assocLookup_foldlSet_not_mem {β : Type} (f : String → β) (urls : List String)
    (acc : List (String × β)) (k : String) (h : k ∉ urls) :
    assocLookup (urls.foldl (fun a u => assocSet a u (f u)) acc) k = assocLookup acc k := by
  induction urls generalizing acc with
  | nil => rfl
  | cons u rest ih =>
    have hu : u ≠ k := fun he => h (by simp [he])
    have hr : k ∉ rest := fun he => h (by simp [he])
    calc assocLookup ((u :: rest).foldl (fun a u => assocSet a u (f u)) acc) k
        = assocLookup (rest.foldl (fun a u => assocSet a u (f u)) (assocSet acc u (f u))) k := rfl
      _ = assocLookup (assocSet acc u (f u)) k := ih _ hr
      _ = assocLookup acc k := assocLookup_set_other _ u k _ hu

theorem assocLookup_foldlSet_mem {β : Type} (f : String → β) (urls : List String)
    (acc : List (String × β)) (k : String) (h : k ∈ urls) :
    assocLookup (urls.foldl (fun a u => assocSet a u (f u)) acc) k = some (f k) := by
  induction urls generalizing acc with
  | nil => cases h
  | cons u rest ih =>
    by_cases hr : k ∈ rest
    · exact ih _ hr
    · have hk : k = u := by
        rcases List.mem_cons.mp h with h1 | h2
        · exact h1
        · exact absurd h2 hr
      subst hk
      calc assocLookup ((k :: rest).foldl (fun a u => assocSet a u (f u)) acc) k
          = assocLookup (rest.foldl (fun a u => assocSet a u (f u)) (assocSet acc k (f k))) k := rfl
        _ = assocLookup (assocSet acc k (f k)) k := assocLookup_foldlSet_not_mem f rest _ k hr
        _ = some (f k) := assocLookup_set_self _ _ _

theorem requireFields_obj_ok (kvs : List (String × JVal)) (fields : List String)
    (h : ∀ f ∈ fields, hasKey kvs f = true) :
    requireFields (.obj kvs) fields = .ok () := by
  induction fields with
  | nil => rfl
  | cons f rest ih =>
    have hf : hasKey kvs f = true := h f (by simp)
    have hrec := ih (fun g hg => h g (by simp [hg]))
    simp [requireFields, pyNotIn, hf, hrec]

theorem requireFields_obj_missing (kvs : List (String × JVal)) (fields : List String)
    (h : ∃ f ∈ fields, hasKey kvs f = false) :
    ∃ f, f ∈ fields ∧ hasKey kvs f = false ∧
      requireFields (.obj kvs) fields = .error (.validationError ("Missing required field " ++ f)) := by
  induction fields with
  | nil => simp at h
  | cons f rest ih =>
    by_cases hf : hasKey kvs f = true
    · obtain ⟨g, hg, hgk⟩ := h
      rcases List.mem_cons.mp hg with h1 | hgr
      · subst h1; rw [hf] at hgk; cases hgk
      · obtain ⟨f2, hf2, hk2, heq⟩ := ih ⟨g, hgr, hgk⟩
        exact ⟨f2, by simp [hf2], hk2, by simp [requireFields, pyNotIn, hf, heq]⟩
    · have hf2 : hasKey kvs f = false := by simpa using hf
      exact ⟨f, by simp, hf2, by simp [requireFields, pyNotIn, hf2]⟩

theorem awaitLoop_single_error (jl : String → Except PyErr JVal) (fuel y : Nat)
    (acc : List (String × Outcome)) (k : String) (e : PyErr) (h : y < fuel) :
    awaitLoop jl fuel acc [(k, ⟨y, .error e⟩)] = .error e := by
  induction fuel generalizing y acc with
  | zero => omega
  | succ fuel ih =>
    cases y with
    | zero => simp [awaitLoop, awaitRound]
    | succ n =>
      simp [awaitLoop, awaitRound]
      exact ih n acc (by omega)

end HelperLemmas

/-- Claim C2 counterexample: on an input whose colon split does not yield
three parts, validateDid fails with the builtin ValueError, not with
ValidationError as the claim states. -/
theorem validateDid_raises_valueError_cex :
    validateDid "nope" "dad" = .error (.valueError "Malformed DID value") ∧
    PyErr.isValidation (.valueError "Malformed DID value") = false := by
  constructor
  · rfl
  · rfl

/-- Claim C2 (amended): for every string of the form did:m:k with the
expected method m, validateDid returns (original string, k); a colon
split without exactly three parts fails with ValueError Malformed DID
value; three parts with a wrong did prefix or a wrong method fail with
ValueError Invalid DID value; no other input causes failure. -/
theorem validateDid_characterization : ∀ (s method : String),
    ((pySplit s ':').length ≠ 3 →
      validateDid s method = .error (.valueError "Malformed DID value")) ∧
    (∀ pre meth keystr, pySplit s ':' = [pre, meth, keystr] →
      ((pre = "did" ∧ meth = method) → validateDid s method = .ok (s, keystr)) ∧
      ((pre ≠ "did" ∨ meth ≠ method) →
        validateDid s method = .error (.valueError "Invalid DID value"))) := by
  intro s method
  constructor
  · intro hlen
    unfold validateDid
    rcases hsp : pySplit s ':' with _ | ⟨a, _ | ⟨b, _ | ⟨c, _ | ⟨d, t⟩⟩⟩⟩ <;>
      simp [hsp] at hlen ⊢
  · intro pre meth keystr hsp
    constructor
    · rintro ⟨rfl, rfl⟩
      simp [validateDid, hsp]
    · intro hne
      have hb : (pre != "did" || meth != method) = true := by
        rcases hne with h | h <;> simp [bne_iff_ne, h]
      simp [validateDid, hsp, hb]

/-- Witness for the amended C2 theorem at a concrete valid DID. -/
theorem validateDid_characterization_witness :
    pySplit "did:dad:abc" ':' = ["did", "dad", "abc"] ∧
    validateDid "did:dad:abc" "dad" = .ok ("did:dad:abc", "abc") :=
  ⟨by rfl,
    ((validateDid_characterization "did:dad:abc" "dad").2 "did" "dad" "abc" (by rfl)).1
      ⟨rfl, rfl⟩⟩

/-- Claim C3: parseJsonFile raises ValidationError on invalid JSON, on a
falsy decoded payload, on a non-dict payload, and on a missing required
top-level key; any other decode failure surfaces as ValidationError
Unexpected error; a nonempty JSON object holding every required key is
returned unchanged, so field values and key insertion order are those of
the input. -/
theorem parseJsonFile_characterization : ∀ (reqs : List String),
    (parseJsonFile (.error .valueExc) reqs = .error (.validationError "Invalid JSON")) ∧
    (parseJsonFile (.error .otherExc) reqs = .error (.validationError "Unexpected error")) ∧
    (∀ d, pyTruthy d = false →
      parseJsonFile (.ok d) reqs = .error (.validationError "Empty body")) ∧
    (∀ d, pyTruthy d = true → d.isObj = false →
      parseJsonFile (.ok d) reqs = .error (.validationError "JSON not dict")) ∧
    (∀ kvs, pyTruthy (JVal.obj kvs) = true → (∃ f ∈ reqs, hasKey kvs f = false) →
      ∃ f, f ∈ reqs ∧ hasKey kvs f = false ∧
        parseJsonFile (.ok (.obj kvs)) reqs =
          .error (.validationError ("Missing required field " ++ f))) ∧
    (∀ kvs, pyTruthy (JVal.obj kvs) = true → (∀ f ∈ reqs, hasKey kvs f = true) →
      parseJsonFile (.ok (.obj kvs)) reqs = .ok (.obj kvs)) := by
  intro reqs
  refine ⟨rfl, rfl, ?_, ?_, ?_, ?_⟩
  · intro d hd
    simp [parseJsonFile, hd]
  · intro d hd hobj
    simp [parseJsonFile, hd, hobj]
  · intro kvs htr hmiss
    obtain ⟨f, hf, hk, heq⟩ := requireFields_obj_missing kvs reqs hmiss
    exact ⟨f, hf, hk, by simp [parseJsonFile, htr, JVal.isObj, heq]⟩
  · intro kvs htr hall
    simp [parseJsonFile, htr, JVal.isObj, requireFields_obj_ok kvs reqs hall]

/-- Witness for the C3 theorem: the success branch and one failure
branch at concrete inputs. -/
theorem parseJsonFile_characterization_witness :
    pyTruthy (JVal.obj [("a", JVal.str "v")]) = true ∧
    (∀ f ∈ ["a"], hasKey [("a", JVal.str "v")] f = true) ∧
    parseJsonFile (.ok (.obj [("a", JVal.str "v")])) ["a"] = .ok (.obj [("a", JVal.str "v")]) :=
  ⟨by rfl, by decide,
    (parseJsonFile_characterization ["a"]).2.2.2.2.2 [("a", JVal.str "v")] (by rfl) (by decide)⟩

/-- Claim C10: a decoded payload that is falsy in Python, among them the
empty object, the empty array, zero, false and null, is rejected as
Empty body before the dict check and before any required-key check, for
every required-key tuple, so a syntactically valid empty JSON object is
always rejected. -/
theorem parseJsonFile_falsy_empty_body : ∀ (reqs : List String) (d : JVal),
    pyTruthy d = false →
    parseJsonFile (.ok d) reqs = .error (.validationError "Empty body") := by
  intro reqs d hd
  simp [parseJsonFile, hd]

/-- Witness for C10: the empty JSON object with no required keys. -/
theorem parseJsonFile_falsy_empty_body_witness :
    pyTruthy (JVal.obj []) = false ∧
    parseJsonFile (.ok (.obj [])) [] = .error (.validationError "Empty body") :=
  ⟨by rfl, parseJsonFile_falsy_empty_body [] (.obj []) (by rfl)⟩

/-- Claim C4 counterexample: a history payload passing every presence
check but carrying a malformed embedded DID makes parseDataFile fail
with the builtin ValueError raised by validateDid, not with
ValidationError as the claim states. -/
theorem parseDataFile_did_valueError_cex :
    parseDataFile
      (.ok (.obj [("history",
        .obj [("id", .str "bad"), ("signer", .str "s"), ("signers", .arr [])])]))
      "history" = .error (.valueError "Malformed DID value") ∧
    PyErr.isValidation (.valueError "Malformed DID value") = false := by
  constructor
  · rfl
  · rfl

/-- Claim C4 (amended): the history branch requires the history wrapper
(errors of the wrapped parse propagate, among them ValidationError
naming the missing wrapper), then the keys id, signer, signers inside
it, raising ValidationError naming the missing field; the otp branch
requires the otp wrapper then id and blob; after the presence checks
the embedded id must parse as a valid DID and a DID-parse failure
propagates as the ValueError raised by validateDid. -/
theorem parseDataFile_characterization : ∀ (r : Except LoadExc JVal),
    (∀ e, parseJsonFile r ["history"] = .error e → parseDataFile r "history" = .error e) ∧
    (∀ e, parseJsonFile r ["otp"] = .error e → parseDataFile r "otp" = .error e) ∧
    (∀ j hkvs, parseJsonFile r ["history"] = .ok j → pyGetItem j "history" = .ok (.obj hkvs) →
      ((∃ f ∈ ["id", "signer", "signers"], hasKey hkvs f = false) →
        ∃ f, f ∈ ["id", "signer", "signers"] ∧ hasKey hkvs f = false ∧
          parseDataFile r "history" =
            .error (.validationError ("Missing required field " ++ f))) ∧
      ((∀ f ∈ ["id", "signer", "signers"], hasKey hkvs f = true) →
        ∀ s, assocLookup hkvs "id" = some (.str s) →
          (∀ e, validateDid s "dad" = .error e → parseDataFile r "history" = .error e) ∧
          (∀ p, validateDid s "dad" = .ok p → parseDataFile r "history" = .ok (.obj hkvs)))) ∧
    (∀ j okvs, parseJsonFile r ["otp"] = .ok j → pyGetItem j "otp" = .ok (.obj okvs) →
      ((∃ f ∈ ["id", "blob"], hasKey okvs f = false) →
        ∃ f, f ∈ ["id", "blob"] ∧ hasKey okvs f = false ∧
          parseDataFile r "otp" =
            .error (.validationError ("Missing required field " ++ f))) ∧
      ((∀ f ∈ ["id", "blob"], hasKey okvs f = true) →
        ∀ s, assocLookup okvs "id" = some (.str s) →
          (∀ e, validateDid s "dad" = .error e → parseDataFile r "otp" = .error e) ∧
          (∀ p, validateDid s "dad" = .ok p → parseDataFile r "otp" = .ok (.obj okvs)))) := by
  intro r
  refine ⟨?_, ?_, ?_, ?_⟩
  · intro e he
    simp [parseDataFile, he]
  · intro e he
    simp [parseDataFile, he]
  · intro j hkvs h1 h2
    constructor
    · intro hmiss
      obtain ⟨f, hf, hk, heq⟩ := requireFields_obj_missing hkvs ["id", "signer", "signers"] hmiss
      exact ⟨f, hf, hk, by simp [parseDataFile, h1, h2, heq]⟩
    · intro hall s hs
      have hreq := requireFields_obj_ok hkvs ["id", "signer", "signers"] hall
      have hid : pyGetItem (JVal.obj hkvs) "id" = .ok (.str s) := by simp [pyGetItem, hs]
      constructor
      · intro e hve
        simp [parseDataFile, h1, h2, hreq, hid, hve]
      · intro p hvp
        simp [parseDataFile, h1, h2, hreq, hid, hvp]
  · intro j okvs h1 h2
    constructor
    · intro hmiss
      obtain ⟨f, hf, hk, heq⟩ := requireFields_obj_missing okvs ["id", "blob"] hmiss
      exact ⟨f, hf, hk, by simp [parseDataFile, h1, h2, heq]⟩
    · intro hall s hs
      have hreq := requireFields_obj_ok okvs ["id", "blob"] hall
      have hid : pyGetItem (JVal.obj okvs) "id" = .ok (.str s) := by simp [pyGetItem, hs]
      constructor
      · intro e hve
        simp [parseDataFile, h1, h2, hreq, hid, hve]
      · intro p hvp
        simp [parseDataFile, h1, h2, hreq, hid, hvp]

/-- Witness for the amended C4 theorem: a well-formed history payload
with a valid DID. -/
theorem parseDataFile_characterization_witness :
    parseJsonFile
        (.ok (.obj [("history",
          .obj [("id", .str "did:dad:abc"), ("signer", .str "s"), ("signers", .arr [])])]))
        ["history"] =
      .ok (.obj [("history",
        .obj [("id", .str "did:dad:abc"), ("signer", .str "s"), ("signers", .arr [])])]) ∧
    validateDid "did:dad:abc" "dad" = .ok ("did:dad:abc", "abc") ∧
    parseDataFile
        (.ok (.obj [("history",
          .obj [("id", .str "did:dad:abc"), ("signer", .str "s"), ("signers", .arr [])])]))
        "history" =
      .ok (.obj [("id", .str "did:dad:abc"), ("signer", .str "s"), ("signers", .arr [])]) :=
  ⟨by rfl, by rfl,
    (((parseDataFile_characterization
        (.ok (.obj [("history",
          .obj [("id", .str "did:dad:abc"), ("signer", .str "s"), ("signers", .arr [])])]))).2.2.1
      (.obj [("history",
        .obj [("id", .str "did:dad:abc"), ("signer", .str "s"), ("signers", .arr [])])])
      [("id", .str "did:dad:abc"), ("signer", .str "s"), ("signers", .arr [])]
      (by rfl) (by rfl)).2 (by decide) "did:dad:abc" (by rfl)).2
      ("did:dad:abc", "abc") (by rfl)⟩

/-- Claim C8 counterexample: the text-encoded verifier raises the codec
DecodeError on a malformed base64 signature, because the decoding step
runs outside the try/except of verify; so the wrapper does not satisfy
the never-raises property. -/
theorem verify64u_raises_cex :
    verify64u (fun _ _ => .error (.valueError "crypto")) "!" "m" "AA" =
      .error (.decodeError "Invalid base64 character") := by
  rfl

/-- Claim C8 (amended): the byte-level verify returns a boolean and never
raises, and it returns true exactly when the primitive opens sig++msg
under the key with a nonempty result; verify64u raises the codec
DecodeError on a malformed base64 signature or key text, and otherwise
never raises: it returns False, because the unicode message is passed
unencoded into verify, where the bytes+str concatenation fails inside
the catch-all. -/
theorem verify_bool_characterization : ∀ (op : List Nat → List Nat → Except PyErr (List Nat)),
    (∀ sig bs vk : List Nat,
      verify op sig (.bytes bs) vk = true ↔ ∃ r, op (sig ++ bs) vk = .ok r ∧ r ≠ []) ∧
    (∀ (signature message verkey : String) (sigb vkb : List Nat),
      key64uToKey signature = .ok sigb → key64uToKey verkey = .ok vkb →
      verify64u op signature message verkey = .ok false) := by
  intro op
  constructor
  · intro sig bs vk
    unfold verify bytesConcat
    cases hop : op (sig ++ bs) vk with
    | error e => simp [hop]
    | ok r =>
      by_cases hr : r.isEmpty
      · simp [hop, hr, List.isEmpty_iff.mp hr]
      · have : r ≠ [] := by
          intro h0
          rw [h0] at hr
          exact hr rfl
        simp [hop, hr, this]
  · intro signature message verkey sigb vkb h1 h2
    simp [verify64u, h1, h2, verify, bytesConcat]

/-- Witness for the amended C8 theorem at concrete well-formed base64
inputs. -/
theorem verify_bool_characterization_witness :
    key64uToKey "QQ" = .ok [65] ∧
    verify64u (fun _ _ => .error (.valueError "x")) "QQ" "m" "QQ" = .ok false :=
  ⟨by rfl,
    (verify_bool_characterization (fun _ _ => .error (.valueError "x"))).2
      "QQ" "m" "QQ" [65] [65] (by rfl) (by rfl)⟩

/-- Claim C9 counterexample: postHistory hands back a caller-visible
record that differs from the record passed in; the changed field has
been stamped into it in place. -/
theorem postHistory_mutates_cex :
    (Historying.postHistory (fun _ _ => "SIG") (fun _ => Fate.timesOut) (fun _ => .ok JVal.null)
        (JVal.obj [("id", JVal.str "did:dad:abc")]) "" (some ["http://localhost:8080"])
        "2000-01-01").1 ≠
      JVal.obj [("id", JVal.str "did:dad:abc")] := by
  have h : (Historying.postHistory (fun _ _ => "SIG") (fun _ => Fate.timesOut)
      (fun _ => .ok JVal.null) (JVal.obj [("id", JVal.str "did:dad:abc")]) ""
      (some ["http://localhost:8080"]) "2000-01-01").1 =
      JVal.obj [("id", JVal.str "did:dad:abc"), ("changed", JVal.str "2000-01-01")] := rfl
  rw [h]
  simp

/-- Claim C9 (amended): every write operation stamps the changed field
into the caller's record in place: after the call the caller-visible
record is exactly the stamped record, not the original value. -/
theorem write_ops_stamp_in_place : ∀ (sign : String → List Nat → String) (net : Request → Fate)
    (jl : String → Except PyErr JVal) (data : JVal) (sk psk did now : String)
    (urls? : Option (List String)) (data2 : JVal),
    pySetItem data "changed" (.str now) = .ok data2 →
    (Historying.postHistory sign net jl data sk urls? now).1 = data2 ∧
    (Historying.putHistory sign net jl did data sk psk urls? now).1 = data2 ∧
    (Otping.postOtpBlob sign net jl data sk urls? now).1 = data2 ∧
    (Otping.putOtpBlob sign net jl did data sk urls? now).1 = data2 := by
  intro sign net jl data sk psk did now urls? data2 h
  refine ⟨?_, ?_, ?_, ?_⟩
  · simp only [Historying.postHistory, h]
    split <;> rfl
  · simp only [Historying.putHistory, h]
    split <;> rfl
  · simp only [Otping.postOtpBlob, h]
    split <;> rfl
  · simp only [Otping.putOtpBlob, h]
    split <;> rfl

/-- Witness for the amended C9 theorem at a concrete record. -/
theorem write_ops_stamp_in_place_witness :
    pySetItem (JVal.obj [("id", JVal.str "x")]) "changed" (.str "T") =
      .ok (JVal.obj [("id", JVal.str "x"), ("changed", JVal.str "T")]) ∧
    (Historying.postHistory (fun _ _ => "SIG") (fun _ => Fate.timesOut) (fun _ => .ok JVal.null)
        (JVal.obj [("id", JVal.str "x")]) "" none "T").1 =
      JVal.obj [("id", JVal.str "x"), ("changed", JVal.str "T")] :=
  ⟨by rfl,
    (write_ops_stamp_in_place (fun _ _ => "SIG") (fun _ => Fate.timesOut)
      (fun _ => .ok JVal.null) (JVal.obj [("id", JVal.str "x")]) "" "" "d" "T" none
      (JVal.obj [("id", JVal.str "x"), ("changed", JVal.str "T")]) (by rfl)).1⟩

/-- Claim C6: putHistory computes two signatures over the same compact
serialized payload, one with the current signing key and one with the
rotation key, and every replica url in the broadcast receives the same
record body with the same single Signature header of the form
signer=sig; rotation=sig2 on a PUT to url/history/did. -/
theorem putHistory_two_signatures : ∀ (sign : String → List Nat → String) (did : String)
    (data2 : JVal) (sk psk : String) (skb pskb : List Nat) (urls : List String) (url : String),
    key64uToKey sk = .ok skb → key64uToKey psk = .ok pskb → url ∈ urls →
    ∃ reqs, Historying.putHistorySigned sign did data2 sk psk urls = .ok reqs ∧
      assocLookup reqs url = some
        ⟨"PUT", url ++ "/" ++ "history" ++ "/" ++ did,
          [("Signature",
            "signer=\"" ++ sign (jsonDumps data2) skb ++ "\"; rotation=\"" ++
              sign (jsonDumps data2) pskb ++ "\"")],
          some data2⟩ := by
  intro sign did data2 sk psk skb pskb urls url h1 h2 hm
  have hps : Historying.putHistorySigned sign did data2 sk psk urls =
      .ok (urls.foldl
        (fun acc u =>
          assocSet acc u
            (⟨"PUT", u ++ "/" ++ "history" ++ "/" ++ did,
              [("Signature",
                "signer=\"" ++ sign (jsonDumps data2) skb ++ "\"; rotation=\"" ++
                  sign (jsonDumps data2) pskb ++ "\"")],
              some data2⟩ : Request))
        []) := by
    simp [Historying.putHistorySigned, h1, h2]
  exact ⟨_, hps, assocLookup_foldlSet_mem _ urls [] url hm⟩

/-- Witness for the C6 theorem at one concrete replica. -/
theorem putHistory_two_signatures_witness :
    key64uToKey "" = .ok [] ∧ ("u" : String) ∈ ["u"] ∧
    ∃ reqs, Historying.putHistorySigned (fun _ _ => "SIG") "d" JVal.null "" "" ["u"] = .ok reqs ∧
      assocLookup reqs "u" = some
        ⟨"PUT", "u" ++ "/" ++ "history" ++ "/" ++ "d",
          [("Signature",
            "signer=\"" ++ "SIG" ++ "\"; rotation=\"" ++ "SIG" ++ "\"")],
          some JVal.null⟩ :=
  ⟨by rfl, by simp,
    putHistory_two_signatures (fun _ _ => "SIG") "d" JVal.null "" "" [] [] ["u"] "u"
      (by rfl) (by rfl) (by simp)⟩

/-- Claim C7 counterexample: the OTP read builds url/did endpoints with
no otp path segment, so the endpoint is not replicaUrl/otp/did as the
claim states. -/
theorem getOtpBlob_endpoint_cex :
    Otping.getPaths "did:dad:abc" ["http://localhost:8080"] =
      ["http://localhost:8080/did:dad:abc"] ∧
    Otping.getPaths "did:dad:abc" ["http://localhost:8080"] ≠
      ["http://localhost:8080/otp/did:dad:abc"] := by
  constructor
  · rfl
  · decide

/-- Claim C7 (amended): the history read builds one url/history/did
endpoint per replica, dispatches the generator dict through awaitAsync
(whose deadline is the fixed httpRequest timeout), and hands the outcome
mapping to the consensus resolver; the OTP read builds url/did endpoints
(the replica url itself must carry the service path) and then fails with
AttributeError because it hands awaitAsync a list instead of a mapping,
so no OTP outcome ever reaches the resolver. -/
theorem get_dispatch_characterization : ∀ (γ : Type)
    (consense : List (String × Outcome) → String → γ) (net : Request → Fate)
    (jl : String → Except PyErr JVal) (did : String) (urls : List String),
    (Historying.getDidHistory consense net jl did (some urls) =
      (awaitAsync jl (.dict (Historying.getGens net did urls))).map
        (fun d => consense d "history")) ∧
    (∀ url ∈ urls, assocLookup (Historying.getGens net did urls) url =
      some (Historying.patronHelper net "GET" (url ++ "/" ++ "history" ++ "/" ++ did)
        none none)) ∧
    (Otping.getPaths did urls = urls.map (fun url => url ++ "/" ++ did)) ∧
    (Otping.getOtpBlob consense net jl did (some urls) =
      .error (.attributeError "list object has no attribute items")) := by
  intro γ consense net jl did urls
  refine ⟨rfl, ?_, rfl, rfl⟩
  intro url hm
  exact assocLookup_foldlSet_mem _ urls [] url hm

/-- Witness for the amended C7 theorem at one concrete replica. -/
theorem get_dispatch_characterization_witness :
    ("u" : String) ∈ ["u"] ∧
    assocLookup (Historying.getGens (fun _ => Fate.timesOut) "d" ["u"]) "u" =
      some (Historying.patronHelper (fun _ => Fate.timesOut) "GET"
        ("u" ++ "/" ++ "history" ++ "/" ++ "d") none none) ∧
    Otping.getOtpBlob (fun _ _ => (0 : Nat)) (fun _ => Fate.timesOut)
        (fun _ => .ok JVal.null) "d" (some ["u"]) =
      .error (.attributeError "list object has no attribute items") :=
  ⟨by simp,
    (get_dispatch_characterization Nat (fun _ _ => 0) (fun _ => Fate.timesOut)
      (fun _ => .ok JVal.null) "d" ["u"]).2.1 "u" (by simp),
    (get_dispatch_characterization Nat (fun _ _ => 0) (fun _ => Fate.timesOut)
      (fun _ => .ok JVal.null) "d" ["u"]).2.2.2⟩

/-- Claim C5: evaluation at the failing input.  postOtpBlob stamps and
signs the record, but then hands awaitAsync a plain list of generators;
awaitAsync immediately fails with AttributeError at generators.items(),
so nothing is sent and no outcome mapping is returned, for any transport
behaviour. -/
theorem postOtpBlob_list_items_bug : ∀ (sign : String → List Nat → String)
    (net : Request → Fate) (jl : String → Except PyErr JVal) (now : String),
    (Otping.postOtpBlob sign net jl
        (JVal.obj [("id", JVal.str "did:dad:abc"), ("blob", JVal.str "b")]) "" none now).2 =
      .error (.attributeError "list object has no attribute items") := by
  intro sign net jl now
  have hset : pySetItem (JVal.obj [("id", JVal.str "did:dad:abc"), ("blob", JVal.str "b")])
      "changed" (.str now) =
      .ok (.obj [("id", JVal.str "did:dad:abc"), ("blob", JVal.str "b"),
        ("changed", .str now)]) := rfl
  have hk : key64uToKey "" = .ok [] := rfl
  simp [Otping.postOtpBlob, Otping.postOtpBlobSigned, hset, hk, awaitAsync]

/-- Claim C1: evaluation at the failing input.  A fan-out whose single
replica is still pending at the deadline makes httpRequest return None;
patronHelper then calls .get on None, and the AttributeError escapes
awaitAsync (which only catches StopIteration) instead of becoming the
request-timeout outcome, for any json decoder. -/
theorem awaitAsync_timeout_attributeError : ∀ (jl : String → Except PyErr JVal),
    awaitAsync jl (.dict [("http://localhost:8080",
        Historying.patronHelper (fun _ => Fate.timesOut) "GET"
          ("http://localhost:8080" ++ "/" ++ "history" ++ "/" ++ "did:dad:abc") none none)]) =
      .error (.attributeError "NoneType object has no attribute get") := by
  intro jl
  have hg : Historying.patronHelper (fun _ => Fate.timesOut) "GET"
      ("http://localhost:8080" ++ "/" ++ "history" ++ "/" ++ "did:dad:abc") none none =
      ⟨deadlineSteps, .error (.attributeError "NoneType object has no attribute get")⟩ := rfl
  rw [hg]
  unfold awaitAsync
  exact awaitLoop_single_error jl _ deadlineSteps [] "http://localhost:8080"
    (.attributeError "NoneType object has no attribute get")
    (by simp [muGens, deadlineSteps])
